import Mathlib

/-!
# FleetOTA — verification of the spec against the source

Shallow embedding of the FleetOTA repository core:
* `vehicle-simulator/vehicle_generator.py` — VIN generation, GPS movement,
  battery drain, per-tick status machine;
* `lambda-functions/update-manager/lambda_function.py` — telemetry
  deduplication, eligibility classification, fleet metrics.

Randomness is made explicit: every `random.*` draw in the source becomes a
parameter of the embedded function, so theorems quantify over all outcomes.
Python floats are modelled by rationals.
-/

namespace FleetOTA

/-! ## VIN generation (`VINGenerator` in vehicle_generator.py) -/

/-- `VINGenerator.VIN_WEIGHTS`. -/
def VIN_WEIGHTS : List Nat := [8, 7, 6, 5, 4, 3, 2, 10, 0, 9, 8, 7, 6, 5, 4, 3, 2]

/-- `VINGenerator.VIN_TRANSLITERATION` as an association list. -/
def VIN_TRANSLITERATION : List (Char × Nat) :=
  [('A', 1), ('B', 2), ('C', 3), ('D', 4), ('E', 5), ('F', 6), ('G', 7), ('H', 8),
   ('J', 1), ('K', 2), ('L', 3), ('M', 4), ('N', 5), ('P', 7), ('R', 9), ('S', 2),
   ('T', 3), ('U', 4), ('V', 5), ('W', 6), ('X', 7), ('Y', 8), ('Z', 9)]

/-- Per-character value used in the check-digit sum: a digit maps to itself,
anything else maps through `VIN_TRANSLITERATION.get(char, 0)`. -/
def charValue (c : Char) : Nat :=
  if c.isDigit then c.toNat - '0'.toNat
  else ((VIN_TRANSLITERATION.lookup c).getD 0)

/-- The weighted total accumulated by `calculate_check_digit`'s loop. For input
of length at most 17 the `zipWith` agrees with the Python loop indexing
`VIN_WEIGHTS[i]`. -/
def vinSum (v : String) : Nat :=
  (List.zipWith (fun c w => charValue c * w) v.data VIN_WEIGHTS).sum

/-- `VINGenerator.calculate_check_digit`: weighted sum of character values
reduced modulo 11; 10 maps to `'X'`, otherwise the decimal digit character. -/
def calculate_check_digit (vin_without_check : String) : Char :=
  if vinSum vin_without_check % 11 = 10 then 'X'
  else Char.ofNat ('0'.toNat + vinSum vin_without_check % 11)

/-- `VINGenerator.WMI_CODES`. -/
def WMI_CODES : List (String × String) :=
  [("TESLA", "5YJ"), ("FORD", "1FA"), ("GM", "1G1"), ("TOYOTA", "5TD"),
   ("HONDA", "1HG"), ("VOLKSWAGEN", "WVW"), ("BMW", "WBA"), ("MERCEDES", "WDD")]

/-- Alphabet used for the 5 VDS characters: `'ABCDEFGHJKLMNPRSTUVWXYZ0123456789'`. -/
def VIN_ALPHABET : List Char := "ABCDEFGHJKLMNPRSTUVWXYZ0123456789".data

/-- Year-code alphabet `'LMNPRSTUVWXYZ'`. -/
def YEAR_CODES : List Char := "LMNPRSTUVWXYZ".data

/-- Plant-code alphabet `'ABCDEFGHJKLMNPRSTUVWXYZ'`. -/
def PLANT_CODES : List Char := "ABCDEFGHJKLMNPRSTUVWXYZ".data

/-- Digit characters produced for the 6-character serial. -/
def SERIAL_DIGITS : List Char := "0123456789".data

/-- The 16 characters `wmi + vds + year_code + plant_code + serial` assembled
by `VINGenerator.generate` before the check digit is inserted. -/
def vin_without_check (manufacturer : String) (vds : List Char) (year_code plant_code : Char)
    (serial : List Char) : List Char :=
  ((WMI_CODES.lookup manufacturer).getD "5YJ").data ++ vds ++ [year_code] ++ [plant_code] ++ serial

/-- `VINGenerator.generate`, with the random draws (5 VDS characters, year
code, plant code, 6 serial digits) made explicit. Mirrors the source: the
check digit is computed on `vin_without_check[:8] + vin_without_check[9:]`,
and the result is `vin_without_check[:8] + check_digit + vin_without_check[8:]`. -/
def generate (manufacturer : String) (vds : List Char) (year_code plant_code : Char)
    (serial : List Char) : String :=
  let v := vin_without_check manufacturer vds year_code plant_code serial
  String.mk (v.take 8 ++ [calculate_check_digit (String.mk (v.take 8 ++ v.drop 9))] ++ v.drop 8)

/-! ### Helper lemmas for the VIN theorems -/

/-- A defaulted association-list lookup lands in the default or the stored values. -/
lemma getD_lookup_mem (l : List (String × String)) (m d : String) :
    (l.lookup m).getD d ∈ d :: l.map Prod.snd := by
  induction l with
  | nil => simp
  | cons p t ih =>
    rcases p with ⟨a, b⟩
    by_cases h : (m == a) = true
    · simp [List.lookup, h]
    · simp only [List.lookup, h, if_false, List.map_cons]
      rcases List.mem_cons.mp ih with h1 | h1
      · exact List.mem_cons.mpr (Or.inl h1)
      · exact List.mem_cons.mpr (Or.inr (List.mem_cons.mpr (Or.inr h1)))

/-- Every WMI the generator can emit has 3 characters and avoids I, O, Q. -/
lemma wmi_spec (m : String) :
    ((WMI_CODES.lookup m).getD "5YJ").data.length = 3 ∧
      ∀ c ∈ ((WMI_CODES.lookup m).getD "5YJ").data, c ≠ 'I' ∧ c ≠ 'O' ∧ c ≠ 'Q' := by
  have h := getD_lookup_mem WMI_CODES m "5YJ"
  simp only [WMI_CODES, List.map_cons, List.map_nil, List.mem_cons,
    List.not_mem_nil, or_false] at h ⊢
  rcases h with h | h | h | h | h | h | h | h | h <;> rw [h] <;> decide

/-- The check digit is always `'X'` or a decimal digit character. -/
lemma check_digit_mem (s : String) :
    calculate_check_digit s = 'X' ∨ (calculate_check_digit s).isDigit := by
  unfold calculate_check_digit
  have hlt : vinSum s % 11 < 11 := Nat.mod_lt _ (by norm_num)
  by_cases h : vinSum s % 11 = 10
  · left; simp [h]
  · right
    rw [if_neg h]
    generalize hg : vinSum s % 11 = n at h hlt
    have h9 : n = 0 ∨ n = 1 ∨ n = 2 ∨ n = 3 ∨ n = 4 ∨
        n = 5 ∨ n = 6 ∨ n = 7 ∨ n = 8 ∨ n = 9 := by omega
    rcases h9 with rfl | rfl | rfl | rfl | rfl | rfl | rfl | rfl | rfl | rfl <;> decide

/-- Digit characters are never I, O, or Q. -/
lemma isDigit_not_IOQ (c : Char) (h : c.isDigit) : c ≠ 'I' ∧ c ≠ 'O' ∧ c ≠ 'Q' := by
  refine ⟨?_, ?_, ?_⟩ <;> rintro rfl <;> exact absurd h (by decide)

/-- The VDS alphabet avoids I, O, Q. -/
lemma vin_alphabet_not_IOQ : ∀ c ∈ VIN_ALPHABET, c ≠ 'I' ∧ c ≠ 'O' ∧ c ≠ 'Q' := by decide

/-- The year-code alphabet avoids I, O, Q. -/
lemma year_codes_not_IOQ : ∀ c ∈ YEAR_CODES, c ≠ 'I' ∧ c ≠ 'O' ∧ c ≠ 'Q' := by decide

/-- The plant-code alphabet avoids I, O, Q. -/
lemma plant_codes_not_IOQ : ∀ c ∈ PLANT_CODES, c ≠ 'I' ∧ c ≠ 'O' ∧ c ≠ 'Q' := by decide

/-- Serial digits avoid I, O, Q. -/
lemma serial_digits_not_IOQ : ∀ c ∈ SERIAL_DIGITS, c ≠ 'I' ∧ c ≠ 'O' ∧ c ≠ 'Q' := by decide

/-! ### C2 -/

/-- C2 (counterexample): for the explicit draws of VDS `AAAAA`, year code `L`,
plant code `A`, serial `000000`, `generate` returns `5YJAAAAA5LA000000`, whose
stored check digit (position 9, index 8) is `'5'`; recomputing
`calculate_check_digit` from the other 16 characters (positions 1-8 and 10-17)
yields `'3'`, so the claimed invariant fails. -/
theorem vin_check_digit_claim_counterexample :
    generate "TESLA" ['A', 'A', 'A', 'A', 'A'] 'L' 'A' ['0', '0', '0', '0', '0', '0'] =
      "5YJAAAAA5LA000000" ∧
    "5YJAAAAA5LA000000".data[8]? = some '5' ∧
    calculate_check_digit
      (String.mk ("5YJAAAAA5LA000000".data.take 8 ++ "5YJAAAAA5LA000000".data.drop 9)) = '3' ∧
    ('3' : Char) ≠ '5' := by decide

/-- C2 (amended): `generate` returns a 17-character string containing none of
I, O, Q, and the check digit stored at position 9 (index 8) is reproduced by
`calculate_check_digit` applied to positions 1-8 and 11-17 of the result (15
characters: the year code at position 10 is excluded, exactly as the source
slices `vin_without_check[:8] + vin_without_check[9:]`). -/
theorem vin_generate_amended (manufacturer : String) (vds : List Char)
    (year_code plant_code : Char) (serial : List Char)
    (hv : vds.length = 5) (hva : ∀ c ∈ vds, c ∈ VIN_ALPHABET)
    (hy : year_code ∈ YEAR_CODES) (hp : plant_code ∈ PLANT_CODES)
    (hs : serial.length = 6) (hsa : ∀ c ∈ serial, c ∈ SERIAL_DIGITS) :
    (generate manufacturer vds year_code plant_code serial).length = 17 ∧
    (∀ c ∈ (generate manufacturer vds year_code plant_code serial).data,
        c ≠ 'I' ∧ c ≠ 'O' ∧ c ≠ 'Q') ∧
    (generate manufacturer vds year_code plant_code serial).data[8]? =
      some (calculate_check_digit (String.mk
        ((generate manufacturer vds year_code plant_code serial).data.take 8 ++
          (generate manufacturer vds year_code plant_code serial).data.drop 10))) := by
  obtain ⟨hw3, hwc⟩ := wmi_spec manufacturer
  have hsplit : vin_without_check manufacturer vds year_code plant_code serial =
      (((WMI_CODES.lookup manufacturer).getD "5YJ").data ++ vds) ++
        (year_code :: plant_code :: serial) := by
    simp [vin_without_check, List.append_assoc]
  have h8 : (((WMI_CODES.lookup manufacturer).getD "5YJ").data ++ vds).length = 8 := by
    simp [hw3, hv]
  have ht8 : (vin_without_check manufacturer vds year_code plant_code serial).take 8 =
      ((WMI_CODES.lookup manufacturer).getD "5YJ").data ++ vds := by
    rw [hsplit, List.take_left' h8]
  have hd8 : (vin_without_check manufacturer vds year_code plant_code serial).drop 8 =
      year_code :: plant_code :: serial := by
    rw [hsplit, List.drop_left' h8]
  have hd9 : (vin_without_check manufacturer vds year_code plant_code serial).drop 9 =
      plant_code :: serial := by
    have h1 : (vin_without_check manufacturer vds year_code plant_code serial).drop 9 =
        ((vin_without_check manufacturer vds year_code plant_code serial).drop 8).drop 1 := by
      rw [List.drop_drop]
    rw [h1, hd8]
    rfl
  have hgen : (generate manufacturer vds year_code plant_code serial).data =
      (((WMI_CODES.lookup manufacturer).getD "5YJ").data ++ vds) ++
        ([calculate_check_digit (String.mk
            ((((WMI_CODES.lookup manufacturer).getD "5YJ").data ++ vds) ++
              (plant_code :: serial)))] ++
          (year_code :: plant_code :: serial)) := by
    show (vin_without_check manufacturer vds year_code plant_code serial).take 8 ++
        [calculate_check_digit (String.mk
          ((vin_without_check manufacturer vds year_code plant_code serial).take 8 ++
            (vin_without_check manufacturer vds year_code plant_code serial).drop 9))] ++
        (vin_without_check manufacturer vds year_code plant_code serial).drop 8 = _
    rw [ht8, hd8, hd9]
    simp [List.append_assoc]
  refine ⟨?_, ?_, ?_⟩
  · have hlen : (generate manufacturer vds year_code plant_code serial).data.length = 17 := by
      rw [hgen]
      simp only [List.length_append, List.length_cons, List.length_nil]
      omega
    exact hlen
  · intro c hc
    rw [hgen] at hc
    simp only [List.mem_append, List.mem_cons, List.mem_singleton,
      List.not_mem_nil, or_false] at hc
    rcases hc with (hc | hc) | (hc | (hc | (hc | hc)))
    · exact hwc c hc
    · exact vin_alphabet_not_IOQ c (hva c hc)
    · rw [hc]
      rcases check_digit_mem (String.mk
          ((((WMI_CODES.lookup manufacturer).getD "5YJ").data ++ vds) ++
            (plant_code :: serial))) with hX | hD
      · rw [hX]; decide
      · exact isDigit_not_IOQ _ hD
    · subst hc; exact year_codes_not_IOQ _ hy
    · subst hc; exact plant_codes_not_IOQ _ hp
    · exact serial_digits_not_IOQ c (hsa c hc)
  · rw [hgen]
    have htk : ((((WMI_CODES.lookup manufacturer).getD "5YJ").data ++ vds) ++
        ([calculate_check_digit (String.mk
            ((((WMI_CODES.lookup manufacturer).getD "5YJ").data ++ vds) ++
              (plant_code :: serial)))] ++
          (year_code :: plant_code :: serial))).take 8 =
        ((WMI_CODES.lookup manufacturer).getD "5YJ").data ++ vds := List.take_left' h8
    have hdp8 : ((((WMI_CODES.lookup manufacturer).getD "5YJ").data ++ vds) ++
        ([calculate_check_digit (String.mk
            ((((WMI_CODES.lookup manufacturer).getD "5YJ").data ++ vds) ++
              (plant_code :: serial)))] ++
          (year_code :: plant_code :: serial))).drop 8 =
        [calculate_check_digit (String.mk
            ((((WMI_CODES.lookup manufacturer).getD "5YJ").data ++ vds) ++
              (plant_code :: serial)))] ++
          (year_code :: plant_code :: serial) := List.drop_left' h8
    have hdp10 : ((((WMI_CODES.lookup manufacturer).getD "5YJ").data ++ vds) ++
        ([calculate_check_digit (String.mk
            ((((WMI_CODES.lookup manufacturer).getD "5YJ").data ++ vds) ++
              (plant_code :: serial)))] ++
          (year_code :: plant_code :: serial))).drop 10 = plant_code :: serial := by
      have h2 : ((((WMI_CODES.lookup manufacturer).getD "5YJ").data ++ vds) ++
          ([calculate_check_digit (String.mk
              ((((WMI_CODES.lookup manufacturer).getD "5YJ").data ++ vds) ++
                (plant_code :: serial)))] ++
            (year_code :: plant_code :: serial))).drop 10 =
          (((((WMI_CODES.lookup manufacturer).getD "5YJ").data ++ vds) ++
            ([calculate_check_digit (String.mk
                ((((WMI_CODES.lookup manufacturer).getD "5YJ").data ++ vds) ++
                  (plant_code :: serial)))] ++
              (year_code :: plant_code :: serial))).drop 8).drop 2 := by
        rw [List.drop_drop]
      rw [h2, hdp8]
      rfl
    rw [htk, hdp10, List.getElem?_append_right (le_of_eq h8)]
    simp [h8]

/-- C2 (amended, witness): the amended VIN invariant evaluated on concrete
draws. -/
theorem vin_generate_amended_witness :
    (generate "TESLA" ['A', 'A', 'A', 'A', 'A'] 'L' 'A' ['0', '0', '0', '0', '0', '0']).length = 17 ∧
    (∀ c ∈ (generate "TESLA" ['A', 'A', 'A', 'A', 'A'] 'L' 'A' ['0', '0', '0', '0', '0', '0']).data,
        c ≠ 'I' ∧ c ≠ 'O' ∧ c ≠ 'Q') ∧
    (generate "TESLA" ['A', 'A', 'A', 'A', 'A'] 'L' 'A' ['0', '0', '0', '0', '0', '0']).data[8]? =
      some (calculate_check_digit (String.mk
        ((generate "TESLA" ['A', 'A', 'A', 'A', 'A'] 'L' 'A'
            ['0', '0', '0', '0', '0', '0']).data.take 8 ++
          (generate "TESLA" ['A', 'A', 'A', 'A', 'A'] 'L' 'A'
            ['0', '0', '0', '0', '0', '0']).data.drop 10))) :=
  vin_generate_amended "TESLA" ['A', 'A', 'A', 'A', 'A'] 'L' 'A' ['0', '0', '0', '0', '0', '0']
    (by decide) (by decide) (by decide) (by decide) (by decide) (by decide)

/-! ### C9

Python's `char.isdigit()` is Unicode-aware and `int(char)` accepts exactly the
decimal digits: for U+00B2 SUPERSCRIPT TWO `isdigit()` is true but `int`
raises ValueError, and for U+0663 ARABIC-INDIC DIGIT THREE `isdigit()` is true
and `int` returns 3. The ASCII-only `charValue` above is exact on the fixed
VIN alphabets (all ASCII) but not on arbitrary strings, so the loop body is
re-embedded here under the Unicode semantics, modelled on an explicit
character fragment. -/

/-- How one character behaves in the digit test of the loop body. -/
inductive PyDigitStatus
  | decimal (v : Nat)
  | digitNoInt
  | notDigit

/-- The fragment of Python's Unicode-aware `str.isdigit` / `int` semantics
that this development models, per character:
* an ASCII decimal digit: `isdigit()` is true and `int` returns its value;
* U+00B2 SUPERSCRIPT TWO (Numeric_Type=Digit): `isdigit()` is true but `int`
  raises ValueError;
* U+0663 ARABIC-INDIC DIGIT THREE (Numeric_Type=Decimal): `isdigit()` is true
  and `int` returns 3;
* any other ASCII character: `isdigit()` is false;
* every other character lies outside the modelled fragment (`none`), and the
  theorems below never touch it. -/
def pyDigitStatus (c : Char) : Option PyDigitStatus :=
  if c.isDigit then some (PyDigitStatus.decimal (c.toNat - '0'.toNat))
  else if c = '²' then some PyDigitStatus.digitNoInt
  else if c = '٣' then some (PyDigitStatus.decimal 3)
  else if c.toNat < 128 then some PyDigitStatus.notDigit
  else none

/-- One evaluation of the loop body of `calculate_check_digit` under the
modelled Python semantics. `none`: the character is outside the modelled
fragment; `some none`: the evaluation raises ValueError; `some (some v)`: the
body assigns `value = v` (a digit maps through `int`, anything else through
`VIN_TRANSLITERATION.get(char, 0)`). -/
def py_char_value (c : Char) : Option (Option Nat) :=
  match pyDigitStatus c with
  | none => none
  | some (PyDigitStatus.decimal v) => some (some v)
  | some PyDigitStatus.digitNoInt => some none
  | some PyDigitStatus.notDigit => some (some ((VIN_TRANSLITERATION.lookup c).getD 0))

/-- The weighted total of the loop under the modelled Python semantics,
characters evaluated left to right with the first failure propagated. For
input of length at most 17 the pairing with `VIN_WEIGHTS` matches the Python
loop indexing `VIN_WEIGHTS[i]`. -/
def py_vinSum : List Char → List Nat → Option (Option Nat)
  | [], _ => some (some 0)
  | _ :: _, [] => some (some 0)
  | c :: cs, w :: ws =>
    match py_char_value c, py_vinSum cs ws with
    | none, _ => none
    | some none, _ => some none
    | some (some _), none => none
    | some (some _), some none => some none
    | some (some v), some (some rest) => some (some (v * w + rest))

/-- `calculate_check_digit` under the modelled Python semantics: `some none`
when the call raises ValueError, `some (some ch)` when it returns `ch`. -/
def py_calculate_check_digit (v : String) : Option (Option Char) :=
  match py_vinSum v.data VIN_WEIGHTS with
  | none => none
  | some none => some none
  | some (some total) =>
      some (some (if total % 11 = 10 then 'X' else Char.ofNat ('0'.toNat + total % 11)))

/-- On ASCII characters the Unicode semantics agrees with `charValue` and
never fails. -/
lemma py_char_value_ascii (c : Char) (h : c.toNat < 128) :
    py_char_value c = some (some (charValue c)) := by
  have h2 : c ≠ '²' := by
    intro hc
    subst hc
    exact absurd h (by decide)
  have h3 : c ≠ '٣' := by
    intro hc
    subst hc
    exact absurd h (by decide)
  unfold py_char_value pyDigitStatus charValue
  by_cases hd : c.isDigit
  · simp [hd]
  · simp [hd, h2, h3, h]

/-- On all-ASCII input the Unicode weighted total agrees with the ASCII model. -/
lemma py_vinSum_ascii (l : List Char) :
    ∀ ws : List Nat, (∀ ch ∈ l, ch.toNat < 128) →
      py_vinSum l ws =
        some (some (List.zipWith (fun c w => charValue c * w) l ws).sum) := by
  induction l with
  | nil =>
    intro ws h
    simp [py_vinSum]
  | cons c cs ih =>
    intro ws h
    cases ws with
    | nil => simp [py_vinSum]
    | cons w ws =>
      have hc := h c (List.mem_cons_self c cs)
      have hrest := ih ws fun x hx => h x (List.mem_cons_of_mem c hx)
      simp [py_vinSum, py_char_value_ascii c hc, hrest]

/-- C9 (counterexample): under Python's Unicode string semantics the claim
fails. The one-character string of U+00B2 has length 1 ≤ 17, its character is
neither an ASCII digit nor a key of the transliteration table, yet
`calculate_check_digit` raises ValueError on it instead of contributing 0; and
U+0663, also neither an ASCII digit nor a table key, contributes 3, not 0. -/
theorem py_check_digit_claim_counterexample :
    ("²" : String).length ≤ 17 ∧
    ('²'.isDigit = false) ∧ VIN_TRANSLITERATION.lookup '²' = none ∧
    py_calculate_check_digit "²" = some none ∧
    ('٣'.isDigit = false) ∧ VIN_TRANSLITERATION.lookup '٣' = none ∧
    py_char_value '٣' = some (some 3) ∧ (3 : Nat) ≠ 0 := by decide

/-- C9 (amended): `calculate_check_digit` is total on every all-ASCII string
of length at most 17, where the Unicode-aware semantics provably agrees with
the ASCII model: an ASCII character that is neither a digit nor a key of the
transliteration table (I, O, Q and lowercase letters included) contributes 0
to the weighted sum rather than causing an error, and the result is always a
single character in the set 0-9, X. On non-ASCII input totality fails:
SUPERSCRIPT TWO makes `int` raise ValueError inside the digit branch, and a
non-ASCII decimal digit such as ARABIC-INDIC DIGIT THREE contributes its
numeric value, not 0. -/
theorem check_digit_total_amended (s : String) (c : Char)
    (hs : s.length ≤ 17)
    (hascii : ∀ ch ∈ s.data, ch.toNat < 128)
    (hc0 : c.toNat < 128) (hc1 : c.isDigit = false)
    (hc2 : VIN_TRANSLITERATION.lookup c = none) :
    py_calculate_check_digit s = some (some (calculate_check_digit s)) ∧
    py_char_value c = some (some 0) ∧
    charValue c = 0 ∧
    (calculate_check_digit s = 'X' ∨ (calculate_check_digit s).isDigit) := by
  refine ⟨?_, ?_, ?_, check_digit_mem s⟩
  · unfold py_calculate_check_digit
    rw [py_vinSum_ascii s.data VIN_WEIGHTS hascii]
    rfl
  · rw [py_char_value_ascii c hc0]
    simp [charValue, hc1, hc2]
  · simp [charValue, hc1, hc2]

/-- C9 (amended, witness): evaluated at the all-ASCII reference string from
the repository's own test and the excluded letter `'I'`. -/
theorem check_digit_total_amended_witness :
    py_calculate_check_digit "5YJSA1E14MF12345" =
      some (some (calculate_check_digit "5YJSA1E14MF12345")) ∧
    py_char_value 'I' = some (some 0) ∧
    charValue 'I' = 0 ∧
    (calculate_check_digit "5YJSA1E14MF12345" = 'X' ∨
      (calculate_check_digit "5YJSA1E14MF12345").isDigit) :=
  check_digit_total_amended "5YJSA1E14MF12345" 'I' (by decide) (by decide) (by decide)
    (by decide) (by decide)

/-! ## Vehicle state machine (`Vehicle` in vehicle_generator.py) -/

/-- `VehicleStatus` enumeration. -/
inductive VehicleStatus
  | online
  | offline
  | updating
  | error
deriving DecidableEq

/-- The outcomes of the two random draws in the status block of
`Vehicle.generate_telemetry` (lines 274-278): `offline_fires` is
`random.random() < 0.02`, `online_fires` is `random.random() < 0.3`. -/
structure StatusDraws where
  offline_fires : Bool
  online_fires : Bool
deriving DecidableEq

/-- The status update performed by one `generate_telemetry` tick:
`if random.random() < 0.02: status = OFFLINE`
`elif status == OFFLINE and random.random() < 0.3: status = ONLINE`. -/
def status_transition (status : VehicleStatus) (d : StatusDraws) : VehicleStatus :=
  if d.offline_fires = true then VehicleStatus.offline
  else if status = VehicleStatus.offline ∧ d.online_fires = true then VehicleStatus.online
  else status

/-! ### C3 -/

/-- C3 (counterexample): when the 2% offline draw fires, a tick moves an
UPDATING vehicle to OFFLINE, so UPDATING is not left unchanged for every
outcome of the random draws. -/
theorem updating_persistence_counterexample :
    status_transition VehicleStatus.updating ⟨true, false⟩ = VehicleStatus.offline ∧
      VehicleStatus.offline ≠ VehicleStatus.updating := by decide

/-- C3 (amended): one tick leaves UPDATING and ERROR unchanged for every
outcome in which the 2% offline draw does not fire; when it fires, the status
(any status) becomes OFFLINE. UPDATING and ERROR are never spontaneously
entered: a tick result of UPDATING (resp. ERROR) forces the pre-state to have
been UPDATING (resp. ERROR) already. -/
theorem updating_error_persistence_amended (s : VehicleStatus) (d : StatusDraws) :
    (status_transition VehicleStatus.updating d =
      if d.offline_fires = true then VehicleStatus.offline else VehicleStatus.updating) ∧
    (status_transition VehicleStatus.error d =
      if d.offline_fires = true then VehicleStatus.offline else VehicleStatus.error) ∧
    (status_transition s d = VehicleStatus.updating ↔
      s = VehicleStatus.updating ∧ d.offline_fires = false) ∧
    (status_transition s d = VehicleStatus.error ↔
      s = VehicleStatus.error ∧ d.offline_fires = false) := by
  rcases d with ⟨f1, f2⟩
  cases f1 <;> cases f2 <;> cases s <;> decide

/-! ## Battery drain (`Vehicle.simulate_battery_drain`) -/

/-- The outcomes of the random draws inside `simulate_battery_drain`:
`drain_sample` is `random.uniform(0.1, 0.5)`, `charge_fires` is
`random.random() < 0.1`, `charge_sample` is `random.uniform(10, 30)`. -/
structure BatteryDraws where
  drain_sample : ℚ
  charge_fires : Bool
  charge_sample : ℚ

/-- The ranges the samplers guarantee for the draws. -/
def BatteryDraws.InRange (d : BatteryDraws) : Prop :=
  1 / 10 ≤ d.drain_sample ∧ d.drain_sample ≤ 1 / 2 ∧
    10 ≤ d.charge_sample ∧ d.charge_sample ≤ 30

/-- `Vehicle.simulate_battery_drain`: drains only while ONLINE
(`max(5, battery - drain_rate)` with `drain_rate = sample * elapsed/60`), then
possibly charges (`min(100, battery + sample)`) when the post-drain battery is
below 30 and the 10% draw fires. -/
def simulate_battery_drain (status : VehicleStatus) (battery_percent : ℚ)
    (d : BatteryDraws) (time_elapsed_seconds : ℚ) : ℚ :=
  if status = VehicleStatus.online then
    if max 5 (battery_percent - d.drain_sample * (time_elapsed_seconds / 60)) < 30 ∧
        d.charge_fires = true then
      min 100 (max 5 (battery_percent - d.drain_sample * (time_elapsed_seconds / 60)) +
        d.charge_sample)
    else max 5 (battery_percent - d.drain_sample * (time_elapsed_seconds / 60))
  else battery_percent

/-- One battery tick preserves the [5, 100] bound. -/
lemma battery_step_bounds (status : VehicleStatus) (b : ℚ) (d : BatteryDraws) (e : ℚ)
    (hb1 : 5 ≤ b) (hb2 : b ≤ 100) (hd : d.InRange) (he : 0 ≤ e) :
    5 ≤ simulate_battery_drain status b d e ∧ simulate_battery_drain status b d e ≤ 100 := by
  obtain ⟨h1, h2, h3, h4⟩ := hd
  have hdr : 0 ≤ d.drain_sample * (e / 60) :=
    mul_nonneg (by linarith) (div_nonneg he (by norm_num))
  unfold simulate_battery_drain
  split_ifs with hst hch
  · constructor
    · refine le_min (by norm_num) ?_
      have h5 := le_max_left (5 : ℚ) (b - d.drain_sample * (e / 60))
      linarith
    · exact min_le_left _ _
  · constructor
    · exact le_max_left _ _
    · exact max_le (by norm_num) (by linarith)
  · exact ⟨hb1, hb2⟩

/-- A sequence of battery ticks: each step carries the status at the time of
the call, the random draws, and the elapsed time. -/
def batteryRun (b0 : ℚ) (steps : List (VehicleStatus × BatteryDraws × ℚ)) : ℚ :=
  steps.foldl (fun b s => simulate_battery_drain s.1 b s.2.1 s.2.2) b0

/-! ### C5 -/

/-- C5: starting from any battery level in [5, 100], after any sequence of
`simulate_battery_drain` calls — any statuses, any non-negative elapsed times,
any outcomes of the drain and charge draws within their samplers' ranges — the
battery level remains in [5, 100]; in particular the floor is 5, not 0. -/
theorem battery_invariant (b0 : ℚ) (steps : List (VehicleStatus × BatteryDraws × ℚ))
    (hb1 : 5 ≤ b0) (hb2 : b0 ≤ 100)
    (hst : ∀ s ∈ steps, s.2.1.InRange ∧ 0 ≤ s.2.2) :
    5 ≤ batteryRun b0 steps ∧ batteryRun b0 steps ≤ 100 := by
  induction steps generalizing b0 with
  | nil => exact ⟨hb1, hb2⟩
  | cons s t ih =>
    have hs0 := hst s (List.mem_cons_self s t)
    obtain ⟨h5, h100⟩ := battery_step_bounds s.1 b0 s.2.1 s.2.2 hb1 hb2 hs0.1 hs0.2
    simp only [batteryRun, List.foldl_cons]
    exact ih _ h5 h100 (fun x hx => hst x (List.mem_cons_of_mem s hx))

/-- C5 (witness): the invariant evaluated on one concrete online tick that
drains and charges. -/
theorem battery_invariant_witness :
    5 ≤ batteryRun 50 [(VehicleStatus.online, ⟨1 / 5, true, 15⟩, 60)] ∧
      batteryRun 50 [(VehicleStatus.online, ⟨1 / 5, true, 15⟩, 60)] ≤ 100 :=
  battery_invariant 50 [(VehicleStatus.online, ⟨1 / 5, true, 15⟩, 60)]
    (by norm_num) (by norm_num)
    (by
      intro s hs
      simp only [List.mem_singleton] at hs
      subst hs
      refine ⟨⟨?_, ?_, ?_, ?_⟩, ?_⟩ <;> norm_num)

/-! ## GPS movement (`GPSSimulator.update_position`) -/

/-- The GPS state owned by one simulator instance. -/
structure GPSState where
  latitude : ℚ
  longitude : ℚ
  speed_kmh : ℚ

/-- The outcomes of the random draws inside `update_position`: `speed_change`
is `random.uniform(-5, 5)`, `u_lat` and `u_lon` are the two
`random.uniform(-1, 1)` axis multipliers. (The `angle` draw in the source is
never used.) -/
structure GPSDraws where
  speed_change : ℚ
  u_lat : ℚ
  u_lon : ℚ

/-- `round(x, 6)`: rounding to 6 decimal places. -/
def round6 (x : ℚ) : ℚ := ((round (x * 1000000) : ℤ) : ℚ) / 1000000

/-- `GPSSimulator.update_position`: perturb and clamp speed to [0, 120],
convert to degrees (111 km per degree), jitter each axis by a tenth of the
sampled multiplier, clamp latitude to [-85, 85] and longitude to [-180, 180],
and return the coordinates rounded to 6 decimal places. -/
def update_position (s : GPSState) (d : GPSDraws) (time_elapsed_seconds : ℚ) :
    GPSState × ℚ × ℚ :=
  let speed := max 0 (min 120 (s.speed_kmh + d.speed_change))
  let distance_deg := speed * time_elapsed_seconds / 3600 / 111
  let lat := max (-85) (min 85 (s.latitude + distance_deg * d.u_lat * (1 / 10)))
  let lon := max (-180) (min 180 (s.longitude + distance_deg * d.u_lon * (1 / 10)))
  (⟨lat, lon, speed⟩, round6 lat, round6 lon)

/-! ### C6 -/

/-- C6: after every `update_position` call — any pre-state, any elapsed time,
any outcomes of the random draws — the stored state satisfies
latitude ∈ [-85, 85] (hence within [-90, 90]), longitude ∈ [-180, 180] and
speed ∈ [0, 120], and the returned coordinates are the stored values rounded
to 6 decimal places; since this holds for an arbitrary pre-state, it holds
after each call of every call sequence. -/
theorem gps_bounds (s : GPSState) (d : GPSDraws) (e : ℚ) :
    -85 ≤ (update_position s d e).1.latitude ∧ (update_position s d e).1.latitude ≤ 85 ∧
    -180 ≤ (update_position s d e).1.longitude ∧ (update_position s d e).1.longitude ≤ 180 ∧
    0 ≤ (update_position s d e).1.speed_kmh ∧ (update_position s d e).1.speed_kmh ≤ 120 ∧
    (update_position s d e).2 =
      (round6 (update_position s d e).1.latitude,
        round6 (update_position s d e).1.longitude) :=
  ⟨le_max_left _ _, max_le (by norm_num) (min_le_left _ _),
    le_max_left _ _, max_le (by norm_num) (min_le_left _ _),
    le_max_left _ _, max_le (by norm_num) (min_le_left _ _), rfl⟩

/-! ## Update manager (`lambda-functions/update-manager/lambda_function.py`)

`analyze_fleet` reads, per snapshot, only `vehicle_id`, `timestamp`, `status`,
`firmware.current_version`, `firmware.update_available` and `battery.percent`;
each access goes through `dict.get` with a default, so every field is modelled
as optional. -/

/-- The fields of a telemetry snapshot read by `analyze_fleet`. -/
structure Telemetry where
  vehicle_id : Option Nat
  timestamp : Option String
  status : Option String
  firmware_current_version : Option String
  firmware_update_available : Option Bool
  battery_percent : Option ℚ
deriving DecidableEq

/-- `LATEST_FIRMWARE_VERSION = "2.0.0"`. -/
def LATEST_FIRMWARE_VERSION : String := "2.0.0"

/-- `MINIMUM_BATTERY_PERCENT = 50`. -/
def MINIMUM_BATTERY_PERCENT : ℚ := 50

/-- Line 189 of the update manager: firmware version with default `unknown`. -/
def extract_firmware_version (t : Telemetry) : String :=
  t.firmware_current_version.getD "unknown"

/-- Line 190: battery percent with default 0. -/
def extract_battery_percent (t : Telemetry) : ℚ := t.battery_percent.getD 0

/-- Line 191: status with default `unknown`. -/
def extract_status (t : Telemetry) : String := t.status.getD "unknown"

/-- Line 192: update-available flag with default `False`. -/
def extract_update_available (t : Telemetry) : Bool :=
  t.firmware_update_available.getD false

/-- The timestamp string used in the dedup comparison:
`telemetry.get('timestamp', '')`. -/
def tsKey (t : Telemetry) : String := t.timestamp.getD ""

/-- The `vehicles` dict of `analyze_fleet`: an insertion-ordered association
list keyed by `telemetry.get('vehicle_id')` (a missing identifier gives the
wildcard key `none`). -/
abbrev VDict := List (Option Nat × Telemetry)

/-- Dict lookup (first entry with the key). -/
def findVal : VDict → Option Nat → Option Telemetry
  | [], _ => none
  | (k2, v) :: rest, k => if k2 = k then some v else findVal rest k

/-- Dict update in place (`vehicles[vehicle_id] = telemetry` on a present key):
every entry carrying the key gets the new value, entry order is preserved. -/
def setVal : VDict → Option Nat → Telemetry → VDict
  | [], _, _ => []
  | (k2, w) :: rest, k, v =>
      if k2 = k then (k, v) :: setVal rest k v else (k2, w) :: setVal rest k v

/-- One iteration of the dedup loop (lines 167-182): insert an unseen vehicle,
replace a seen one only when the new timestamp string is strictly greater. -/
def dedupStep (d : VDict) (t : Telemetry) : VDict :=
  match findVal d t.vehicle_id with
  | none => d ++ [(t.vehicle_id, t)]
  | some prev => if tsKey prev < tsKey t then setVal d t.vehicle_id t else d

/-- The full dedup pass over the snapshot batch. -/
def dedup (ts : List Telemetry) : VDict := ts.foldl dedupStep []

/-- The five eligibility buckets of the classifier. -/
inductive Bucket
  | updating
  | offline
  | up_to_date
  | insufficient_battery
  | eligible
deriving DecidableEq

/-- The elif chain of lines 198-217, first match wins. -/
def classify (t : Telemetry) : Bucket :=
  if extract_status t = "updating" then Bucket.updating
  else if extract_status t = "offline" then Bucket.offline
  else if extract_firmware_version t = LATEST_FIRMWARE_VERSION then Bucket.up_to_date
  else if extract_battery_percent t < MINIMUM_BATTERY_PERCENT then Bucket.insufficient_battery
  else Bucket.eligible

/-- The counters of the `fleet_status` dict that the claims mention. -/
structure FleetStatus where
  total_vehicles : Nat
  update_eligible : Nat
  update_in_progress : Nat
  up_to_date : Nat
  insufficient_battery : Nat
  offline : Nat
deriving DecidableEq

/-- The zero-initialised `fleet_status`. -/
def initialFleetStatus : FleetStatus := ⟨0, 0, 0, 0, 0, 0⟩

/-- One iteration of the per-vehicle loop (lines 185-217): increment the total
and exactly one bucket counter. -/
def countVehicle (fs : FleetStatus) (t : Telemetry) : FleetStatus :=
  let fs1 := { fs with total_vehicles := fs.total_vehicles + 1 }
  match classify t with
  | Bucket.updating => { fs1 with update_in_progress := fs1.update_in_progress + 1 }
  | Bucket.offline => { fs1 with offline := fs1.offline + 1 }
  | Bucket.up_to_date => { fs1 with up_to_date := fs1.up_to_date + 1 }
  | Bucket.insufficient_battery =>
      { fs1 with insufficient_battery := fs1.insufficient_battery + 1 }
  | Bucket.eligible => { fs1 with update_eligible := fs1.update_eligible + 1 }

/-- `analyze_fleet`: dedup the batch, then classify each retained snapshot. -/
def analyze_fleet (ts : List Telemetry) : FleetStatus :=
  ((dedup ts).map Prod.snd).foldl countVehicle initialFleetStatus

/-- The `UpdateEligibilityRate` metric of `publish_update_metrics` (line 311):
`update_eligible / max(total_vehicles, 1) * 100`. -/
def update_eligibility_rate (fs : FleetStatus) : ℚ :=
  ((fs.update_eligible : ℚ) / ((max fs.total_vehicles 1 : ℕ) : ℚ)) * 100

/-! ### Dedup lemmas -/

/-- Keys of the dict, in insertion order. -/
def keysOf (d : VDict) : List (Option Nat) := d.map Prod.fst

/-- Appending a fresh entry is invisible to lookups of present keys. -/
lemma findVal_append_single (d : VDict) (k k2 : Option Nat) (v : Telemetry) :
    findVal (d ++ [(k2, v)]) k =
      match findVal d k with
      | none => if k2 = k then some v else none
      | some w => some w := by
  induction d with
  | nil => rfl
  | cons p rest ih =>
    rcases p with ⟨k3, w⟩
    by_cases h : k3 = k
    · simp [findVal, h]
    · simp [findVal, h, ih]

/-- Updating the value at a present key is what lookup then sees. -/
lemma findVal_setVal_self (d : VDict) (k : Option Nat) (v w : Telemetry)
    (h : findVal d k = some w) : findVal (setVal d k v) k = some v := by
  induction d with
  | nil => simp [findVal] at h
  | cons p rest ih =>
    rcases p with ⟨k2, u⟩
    by_cases hk : k2 = k
    · simp [setVal, findVal, hk]
    · simp only [findVal, if_neg hk] at h
      simp [setVal, findVal, hk, ih h]

/-- Updating one key leaves lookups of other keys unchanged. -/
lemma findVal_setVal_ne (d : VDict) (k k2 : Option Nat) (v : Telemetry)
    (h : k2 ≠ k) : findVal (setVal d k2 v) k = findVal d k := by
  induction d with
  | nil => rfl
  | cons p rest ih =>
    rcases p with ⟨k3, u⟩
    by_cases hk : k3 = k2
    · simp [setVal, findVal, hk, h, ih]
    · by_cases hk2 : k3 = k
      · subst hk2
        simp [setVal, findVal, hk]
      · simp [setVal, findVal, hk, hk2, ih]

/-- The per-key effect of one dedup iteration. -/
def stepOne (acc : Option Telemetry) (t : Telemetry) : Option Telemetry :=
  match acc with
  | none => some t
  | some prev => if tsKey prev < tsKey t then some t else some prev

/-- One dedup iteration, seen through lookup at an arbitrary key. -/
lemma findVal_dedupStep (d : VDict) (t : Telemetry) (k : Option Nat) :
    findVal (dedupStep d t) k =
      if t.vehicle_id = k then stepOne (findVal d k) t else findVal d k := by
  unfold dedupStep
  by_cases hk : t.vehicle_id = k
  · subst hk
    cases hf : findVal d t.vehicle_id with
    | none =>
      rw [findVal_append_single, hf]
      simp [stepOne, hf]
    | some prev =>
      by_cases hlt : tsKey prev < tsKey t
      · rw [if_pos rfl]
        simp only [if_pos hlt]
        rw [findVal_setVal_self d _ t prev hf]
        simp [stepOne, hlt]
      · rw [if_pos rfl]
        simp only [if_neg hlt]
        simp [stepOne, hlt, hf]
  · rw [if_neg hk]
    cases hf : findVal d t.vehicle_id with
    | none =>
      rw [findVal_append_single]
      cases hg : findVal d k with
      | none => simp [hk]
      | some w => simp
    | some prev =>
      by_cases hlt : tsKey prev < tsKey t
      · simp only [if_pos hlt]
        exact findVal_setVal_ne d k t.vehicle_id t hk
      · simp only [if_neg hlt]

/-- Lookup after the dedup fold equals the per-key fold over the snapshots of
that key, in processing order. -/
lemma findVal_foldl (l : List Telemetry) (d : VDict) (k : Option Nat) :
    findVal (l.foldl dedupStep d) k =
      (l.filter fun t => t.vehicle_id == k).foldl stepOne (findVal d k) := by
  induction l generalizing d with
  | nil => rfl
  | cons t l ih =>
    simp only [List.foldl_cons]
    rw [ih]
    by_cases hk : t.vehicle_id = k
    · simp [List.filter_cons, hk, findVal_dedupStep]
    · simp [List.filter_cons, hk, findVal_dedupStep]

/-- Folding `stepOne` lands on the strict timestamp maximum when one exists. -/
lemma foldl_stepOne_strict (l : List Telemetry) (x : Telemetry) :
    ∀ acc : Option Telemetry,
      (x ∈ l ∨ acc = some x) →
      (∀ y ∈ l, y ≠ x → tsKey y < tsKey x) →
      (∀ z, acc = some z → z ≠ x → tsKey z < tsKey x) →
      l.foldl stepOne acc = some x := by
  induction l with
  | nil =>
    intro acc hmem _ _
    rcases hmem with h | h
    · exact absurd h (List.not_mem_nil x)
    · simpa using h
  | cons t l ih =>
    intro acc hmem hmax hacc
    simp only [List.foldl_cons]
    apply ih
    · by_cases hxt : t = x
      · right
        subst hxt
        cases hae : acc with
        | none => rfl
        | some z =>
          by_cases hzx : z = t
          · subst hzx
            simp [stepOne, lt_irrefl]
          · have hz := hacc z hae hzx
            simp [stepOne, hz]
      · rcases hmem with h | h
        · left
          rcases List.mem_cons.mp h with h1 | h1
          · exact absurd h1.symm hxt
          · exact h1
        · right
          have hlt := hmax t (List.mem_cons_self t l) hxt
          rw [h]
          simp [stepOne, not_lt.mpr (le_of_lt hlt)]
    · exact fun y hy => hmax y (List.mem_cons_of_mem t hy)
    · intro z hz hzx
      cases hae : acc with
      | none =>
        rw [hae] at hz
        simp only [stepOne] at hz
        injection hz with hz
        subst hz
        exact hmax t (List.mem_cons_self t l) hzx
      | some w =>
        rw [hae] at hz
        simp only [stepOne] at hz
        by_cases hlt : tsKey w < tsKey t
        · rw [if_pos hlt] at hz
          injection hz with hz
          subst hz
          exact hmax t (List.mem_cons_self t l) hzx
        · rw [if_neg hlt] at hz
          injection hz with hz
          subst hz
          exact hacc w hae hzx

/-- One `stepOne` application always yields a value. -/
lemma stepOne_isSome (acc : Option Telemetry) (t : Telemetry) : (stepOne acc t).isSome := by
  cases acc with
  | none => rfl
  | some w =>
    show (if tsKey w < tsKey t then some t else some w).isSome = true
    split_ifs <;> rfl

/-- Folding `stepOne` over a non-empty list (or from a present value) yields a
value. -/
lemma foldl_stepOne_isSome (l : List Telemetry) :
    ∀ acc : Option Telemetry, (l ≠ [] ∨ acc.isSome) → (l.foldl stepOne acc).isSome := by
  induction l with
  | nil =>
    intro acc h
    rcases h with h | h
    · exact absurd rfl h
    · simpa using h
  | cons t l ih =>
    intro acc _
    simp only [List.foldl_cons]
    exact ih _ (Or.inr (stepOne_isSome acc t))

/-- Absent keys are exactly those lookup misses. -/
lemma findVal_eq_none_iff (d : VDict) (k : Option Nat) :
    findVal d k = none ↔ k ∉ keysOf d := by
  induction d with
  | nil => simp [findVal, keysOf]
  | cons p rest ih =>
    rcases p with ⟨k2, v⟩
    by_cases h : k2 = k
    · subst h
      simp [findVal, keysOf]
    · have h2 : findVal ((k2, v) :: rest) k = findVal rest k := by simp [findVal, h]
      rw [h2, ih]
      simp only [keysOf, List.map_cons, List.mem_cons, not_or]
      constructor
      · intro hk
        exact ⟨fun hc => h hc.symm, hk⟩
      · intro hk
        exact hk.2

/-- `setVal` never changes the key sequence. -/
lemma keysOf_setVal (d : VDict) (k : Option Nat) (v : Telemetry) :
    keysOf (setVal d k v) = keysOf d := by
  induction d with
  | nil => rfl
  | cons p rest ih =>
    rcases p with ⟨k2, w⟩
    have ih2 : List.map Prod.fst (setVal rest k v) = List.map Prod.fst rest := ih
    by_cases h : k2 = k
    · subst h
      simp [setVal, keysOf, ih2]
    · simp [setVal, keysOf, h, ih2]

/-- The dedup dict never holds two entries with the same key. -/
lemma keysOf_dedup_nodup (ts : List Telemetry) : (keysOf (dedup ts)).Nodup := by
  suffices h : ∀ d : VDict, (keysOf d).Nodup → (keysOf (ts.foldl dedupStep d)).Nodup by
    exact h [] (by simp [keysOf])
  induction ts with
  | nil => exact fun d hd => hd
  | cons t l ih =>
    intro d hd
    simp only [List.foldl_cons]
    apply ih
    unfold dedupStep
    cases hf : findVal d t.vehicle_id with
    | none =>
      have hnot := (findVal_eq_none_iff d t.vehicle_id).mp hf
      simp only [keysOf, List.map_append, List.map_cons, List.map_nil]
      rw [List.nodup_append]
      refine ⟨hd, List.nodup_singleton _, ?_⟩
      intro a ha hb
      simp only [List.mem_singleton] at hb
      subst hb
      exact hnot ha
    | some prev =>
      dsimp only
      by_cases hlt : tsKey prev < tsKey t
      · rw [if_pos hlt, keysOf_setVal]
        exact hd
      · rw [if_neg hlt]
        exact hd

/-! ### Classifier counting lemmas -/

/-- One loop iteration adds one to the total and one to the bucket sum. -/
lemma countVehicle_total (fs : FleetStatus) (t : Telemetry) :
    (countVehicle fs t).total_vehicles = fs.total_vehicles + 1 ∧
      (countVehicle fs t).update_in_progress + (countVehicle fs t).offline +
        (countVehicle fs t).up_to_date + (countVehicle fs t).insufficient_battery +
        (countVehicle fs t).update_eligible =
      fs.update_in_progress + fs.offline + fs.up_to_date + fs.insufficient_battery +
        fs.update_eligible + 1 := by
  unfold countVehicle
  cases classify t <;> constructor <;> simp <;> omega

/-- Fold form of the counting argument. -/
lemma analyze_counts (l : List Telemetry) (fs : FleetStatus) :
    (l.foldl countVehicle fs).total_vehicles = fs.total_vehicles + l.length ∧
      (l.foldl countVehicle fs).update_in_progress + (l.foldl countVehicle fs).offline +
        (l.foldl countVehicle fs).up_to_date +
        (l.foldl countVehicle fs).insufficient_battery +
        (l.foldl countVehicle fs).update_eligible =
      fs.update_in_progress + fs.offline + fs.up_to_date + fs.insufficient_battery +
        fs.update_eligible + l.length := by
  induction l generalizing fs with
  | nil => simp
  | cons t l ih =>
    simp only [List.foldl_cons, List.length_cons]
    obtain ⟨ha, hb⟩ := countVehicle_total fs t
    obtain ⟨hc, hd⟩ := ih (countVehicle fs t)
    constructor
    · rw [hc, ha]
      omega
    · rw [hd, hb]
      omega

/-- The bucket counters sum to the vehicle total. -/
lemma analyze_sum (ts : List Telemetry) :
    (analyze_fleet ts).update_in_progress + (analyze_fleet ts).offline +
      (analyze_fleet ts).up_to_date + (analyze_fleet ts).insufficient_battery +
      (analyze_fleet ts).update_eligible = (analyze_fleet ts).total_vehicles := by
  obtain ⟨ha, hb⟩ := analyze_counts ((dedup ts).map Prod.snd) initialFleetStatus
  unfold analyze_fleet
  rw [hb, ha]
  simp [initialFleetStatus]

/-! ### C1 -/

/-- C1: `analyze_fleet` assigns each deduplicated vehicle's retained snapshot
to exactly one of the five buckets (classification is a total function into a
five-constructor type), by first-match priority — UPDATING on status
`updating`; else OFFLINE on status `offline` regardless of firmware or
battery; else UP_TO_DATE on the latest firmware version; else
INSUFFICIENT_BATTERY below the 50-percent threshold; else ELIGIBLE — and the
five bucket counts sum to exactly the reported vehicle total. -/
theorem analyze_fleet_buckets (ts : List Telemetry) (t : Telemetry) :
    ((analyze_fleet ts).update_in_progress + (analyze_fleet ts).offline +
        (analyze_fleet ts).up_to_date + (analyze_fleet ts).insufficient_battery +
        (analyze_fleet ts).update_eligible = (analyze_fleet ts).total_vehicles) ∧
    (classify t = Bucket.updating ↔ extract_status t = "updating") ∧
    (classify t = Bucket.offline ↔
      extract_status t ≠ "updating" ∧ extract_status t = "offline") ∧
    (classify t = Bucket.up_to_date ↔
      extract_status t ≠ "updating" ∧ extract_status t ≠ "offline" ∧
        extract_firmware_version t = LATEST_FIRMWARE_VERSION) ∧
    (classify t = Bucket.insufficient_battery ↔
      extract_status t ≠ "updating" ∧ extract_status t ≠ "offline" ∧
        extract_firmware_version t ≠ LATEST_FIRMWARE_VERSION ∧
        extract_battery_percent t < MINIMUM_BATTERY_PERCENT) ∧
    (classify t = Bucket.eligible ↔
      extract_status t ≠ "updating" ∧ extract_status t ≠ "offline" ∧
        extract_firmware_version t ≠ LATEST_FIRMWARE_VERSION ∧
        ¬extract_battery_percent t < MINIMUM_BATTERY_PERCENT) := by
  refine ⟨analyze_sum ts, ?_, ?_, ?_, ?_, ?_⟩ <;>
    · unfold classify
      split_ifs <;> simp_all

/-! ### C4 -/

/-- C4: whenever a snapshot `x` of vehicle key `k` has a strictly greater
timestamp string than every other snapshot of that vehicle in the batch (as
holds when the per-vehicle timestamps are pairwise distinct and `x` carries
the greatest), the dedup pass retains exactly `x` for `k`; the hypotheses are
invariant under reordering of the batch, so the retained snapshot does not
depend on processing order. -/
theorem dedup_keeps_latest (ts : List Telemetry) (k : Option Nat) (x : Telemetry)
    (hmem : x ∈ ts) (hid : x.vehicle_id = k)
    (hmax : ∀ y ∈ ts, y.vehicle_id = k → y ≠ x → tsKey y < tsKey x) :
    findVal (dedup ts) k = some x := by
  unfold dedup
  rw [findVal_foldl]
  apply foldl_stepOne_strict
  · left
    exact List.mem_filter.mpr ⟨hmem, by simp [hid]⟩
  · intro y hy hyx
    have hy2 := List.mem_filter.mp hy
    exact hmax y hy2.1 (by simpa using hy2.2) hyx
  · intro z hz
    simp [findVal] at hz

/-- C4 (witness): two out-of-order snapshots of vehicle 1; the one with the
greater timestamp string is retained. -/
theorem dedup_keeps_latest_witness :
    findVal (dedup
      [⟨some 1, some "2025-09-01T09:00:00", some "online", some "1.3.0", some false, some 80⟩,
       ⟨some 1, some "2025-09-01T10:00:00", some "offline", some "1.2.0", some true, some 20⟩])
      (some 1) =
      some ⟨some 1, some "2025-09-01T10:00:00", some "offline", some "1.2.0", some true,
        some 20⟩ :=
  dedup_keeps_latest
    [⟨some 1, some "2025-09-01T09:00:00", some "online", some "1.3.0", some false, some 80⟩,
     ⟨some 1, some "2025-09-01T10:00:00", some "offline", some "1.2.0", some true, some 20⟩]
    (some 1)
    ⟨some 1, some "2025-09-01T10:00:00", some "offline", some "1.2.0", some true, some 20⟩
    (by decide) (by decide)
    (by
      intro y hy hid2 hneq
      simp only [List.mem_cons, List.not_mem_nil, or_false] at hy
      rcases hy with rfl | rfl
      · rw [String.lt_iff_toList_lt]
        decide
      · exact absurd rfl hneq)

/-! ### C10 -/

/-- C10: the dedup loop replaces the retained snapshot only on a strictly
greater timestamp string: when a later-processed snapshot of the same vehicle
has a timestamp at most the retained one (in particular an equal one, or a
missing timestamp, which compares as the empty string), the dict is left
unchanged and the first-processed snapshot stays retained. -/
theorem dedup_keeps_first_on_tie (d : VDict) (t prev : Telemetry)
    (hf : findVal d t.vehicle_id = some prev) (hle : tsKey t ≤ tsKey prev) :
    dedupStep d t = d ∧ findVal (dedupStep d t) t.vehicle_id = some prev ∧
      (∀ u : Telemetry, u.timestamp = none → tsKey u = "") := by
  have hd : dedupStep d t = d := by
    unfold dedupStep
    rw [hf]
    exact if_neg (not_lt.mpr hle)
  exact ⟨hd, by rw [hd]; exact hf, fun u hu => by simp [tsKey, hu]⟩

/-- C10 (witness): a later snapshot of vehicle 1 with a missing timestamp does
not displace the retained one. -/
theorem dedup_keeps_first_on_tie_witness :
    dedupStep
        [(some 1,
          ⟨some 1, some "2025-09-01T09:00:00", some "online", some "1.3.0", some false, some 80⟩)]
        ⟨some 1, none, some "offline", some "1.2.0", some true, some 20⟩ =
      [(some 1,
        ⟨some 1, some "2025-09-01T09:00:00", some "online", some "1.3.0", some false, some 80⟩)] ∧
    findVal (dedupStep
        [(some 1,
          ⟨some 1, some "2025-09-01T09:00:00", some "online", some "1.3.0", some false, some 80⟩)]
        ⟨some 1, none, some "offline", some "1.2.0", some true, some 20⟩)
      (some 1) =
      some ⟨some 1, some "2025-09-01T09:00:00", some "online", some "1.3.0", some false,
        some 80⟩ ∧
    (∀ u : Telemetry, u.timestamp = none → tsKey u = "") :=
  dedup_keeps_first_on_tie
    [(some 1,
      ⟨some 1, some "2025-09-01T09:00:00", some "online", some "1.3.0", some false, some 80⟩)]
    ⟨some 1, none, some "offline", some "1.2.0", some true, some 20⟩
    ⟨some 1, some "2025-09-01T09:00:00", some "online", some "1.3.0", some false, some 80⟩
    (by decide)
    (by
      rw [String.le_iff_toList_le]
      decide)

/-! ### C7 -/

/-- C7: classification never fails on snapshots with missing fields — every
extractor is total with the documented default (battery 0, update-available
false, status and firmware version `unknown`), snapshots with a missing
vehicle identifier all share the single wildcard key (the dict never holds two
entries per key, so they form one group), such a group is present in the dict
whenever such a snapshot is in the batch, and every dict entry is counted in
the reported total rather than dropped. -/
theorem malformed_defaults :
    (∀ t : Telemetry, t.battery_percent = none → extract_battery_percent t = 0) ∧
    (∀ t : Telemetry, t.firmware_update_available = none →
      extract_update_available t = false) ∧
    (∀ t : Telemetry, t.status = none → extract_status t = "unknown") ∧
    (∀ t : Telemetry, t.firmware_current_version = none →
      extract_firmware_version t = "unknown") ∧
    (∀ ts : List Telemetry, (keysOf (dedup ts)).Nodup) ∧
    (∀ ts : List Telemetry, ∀ t ∈ ts, t.vehicle_id = none →
      (findVal (dedup ts) none).isSome) ∧
    (∀ ts : List Telemetry, (analyze_fleet ts).total_vehicles = (dedup ts).length) := by
  refine ⟨?_, ?_, ?_, ?_, keysOf_dedup_nodup, ?_, ?_⟩
  · intro t ht
    simp [extract_battery_percent, ht]
  · intro t ht
    simp [extract_update_available, ht]
  · intro t ht
    simp [extract_status, ht]
  · intro t ht
    simp [extract_firmware_version, ht]
  · intro ts t ht hid
    unfold dedup
    rw [findVal_foldl]
    apply foldl_stepOne_isSome
    left
    exact List.ne_nil_of_mem (List.mem_filter.mpr ⟨ht, by simp [hid]⟩)
  · intro ts
    have ha := (analyze_counts ((dedup ts).map Prod.snd) initialFleetStatus).1
    unfold analyze_fleet
    rw [ha]
    simp [initialFleetStatus]

/-- C7 (witness): the defaults and the wildcard group evaluated on the
all-missing snapshot. -/
theorem malformed_defaults_witness :
    extract_battery_percent ⟨none, none, none, none, none, none⟩ = 0 ∧
    extract_update_available ⟨none, none, none, none, none, none⟩ = false ∧
    extract_status ⟨none, none, none, none, none, none⟩ = "unknown" ∧
    extract_firmware_version ⟨none, none, none, none, none, none⟩ = "unknown" ∧
    (findVal (dedup [⟨none, none, none, none, none, none⟩]) none).isSome ∧
    (analyze_fleet [⟨none, none, none, none, none, none⟩]).total_vehicles =
      (dedup [⟨none, none, none, none, none, none⟩]).length :=
  ⟨malformed_defaults.1 _ rfl, malformed_defaults.2.1 _ rfl,
    malformed_defaults.2.2.1 _ rfl, malformed_defaults.2.2.2.1 _ rfl,
    malformed_defaults.2.2.2.2.2.1 [⟨none, none, none, none, none, none⟩]
      ⟨none, none, none, none, none, none⟩ (List.mem_singleton.mpr rfl) rfl,
    malformed_defaults.2.2.2.2.2.2 [⟨none, none, none, none, none, none⟩]⟩

/-! ### C8 -/

/-- C8: the eligibility-rate metric divides by `max(total_vehicles, 1)`, which
is never zero, and an empty fleet (total 0, hence 0 eligible) yields a rate of
0 rather than a division error. -/
theorem eligibility_rate_safe (ts : List Telemetry) :
    (((max (analyze_fleet ts).total_vehicles 1 : ℕ) : ℚ) ≠ 0) ∧
      ((analyze_fleet ts).total_vehicles = 0 →
        update_eligibility_rate (analyze_fleet ts) = 0) := by
  constructor
  · have h1 : 1 ≤ max (analyze_fleet ts).total_vehicles 1 := le_max_right _ 1
    exact Nat.cast_ne_zero.mpr (by omega)
  · intro h0
    have hsum := analyze_sum ts
    have he : (analyze_fleet ts).update_eligible = 0 := by omega
    rw [update_eligibility_rate, he, h0]
    norm_num

/-- C8 (witness): the empty batch gives total 0 and rate 0. -/
theorem eligibility_rate_safe_witness :
    (((max (analyze_fleet ([] : List Telemetry)).total_vehicles 1 : ℕ) : ℚ) ≠ 0) ∧
      update_eligibility_rate (analyze_fleet ([] : List Telemetry)) = 0 :=
  ⟨(eligibility_rate_safe []).1, (eligibility_rate_safe []).2 rfl⟩

end FleetOTA
